import Mathlib

/-!
Verification development for the WhatsApp multi-instance session manager
(`src/services/WhatsAppManager.js`, `src/controllers/whatsappController.js`).

The JavaScript code is shallowly embedded: the per-instance mutable record
becomes the structure `Instance`, the `Map`-based registry and profile-picture
cache become association lists with `Map.set`/`Map.get`/`Map.delete` semantics,
and each relevant method becomes a pure function.  Asynchronous client calls
(`client.initialize()`, `contact.getProfilePicUrl()`, ...) are abstracted as
oracle parameters giving the outcome of the call; timers are abstracted away
and each callback body is one atomic step, matching the single-threaded
event-loop execution of the source.
-/

namespace WpWebjs

/-- Status strings stored in `instance.status`.  The source stores plain
strings; every string that is ever assigned is listed here.  Note that the two
`auth_failure` handlers assign the two distinct strings `'auth_failed'` and
`'auth_failure'`, so both appear. -/
inductive Status where
  | initializing
  | qr_required
  | qr_ready
  | authenticating
  | recovering
  | authenticated
  | auth_failed
  | auth_failure
  | ready
  | disconnected
  | failed
deriving DecidableEq, Repr

/-- The per-instance record kept in `this.instances` (WhatsAppManager.js).
The `client` handle, timestamps and profile info are not needed by any claim
and are omitted; `keepAliveInterval` is modelled by the boolean `keepAliveOn`. -/
structure Instance where
  status : Status
  qr : Option String
  hasValidAuth : Bool
  skipQR : Bool
  isRecovered : Bool
  reconnectAttempts : Nat
  reconnecting : Bool
  keepAliveOn : Bool
deriving DecidableEq, Repr

/-- `this.maxReconnectAttempts = 8` (WhatsAppManager.js line 17). -/
def maxReconnectAttempts : Nat := 8

/-! ### Association lists with JavaScript `Map` semantics -/

/-- `Map.prototype.get`. -/
def assocFind? {β : Type} : List (String × β) → String → Option β
  | [], _ => none
  | (k, v) :: rest, key => if k = key then some v else assocFind? rest key

/-- `Map.prototype.set`: overwrite in place if the key is present, else append
(JS maps preserve the original insertion position on overwrite). -/
def assocSet {β : Type} (m : List (String × β)) (key : String) (v : β) :
    List (String × β) :=
  if (assocFind? m key).isSome then
    m.map fun p => if p.1 = key then (key, v) else p
  else m ++ [(key, v)]

/-- `Map.prototype.delete`. -/
def assocErase {β : Type} (m : List (String × β)) (key : String) :
    List (String × β) :=
  m.filter fun p => ¬ p.1 = key

/-- The instance registry `this.instances`. -/
abbrev Registry := List (String × Instance)

/-! ### `String.prototype.includes` -/

/-- Character-list version of `String.prototype.startsWith` (helper for
substring containment). -/
def startsWithChars : List Char → List Char → Bool
  | [], _ => true
  | _ :: _, [] => false
  | a :: as, b :: bs => a = b && startsWithChars as bs

/-- Does `needle` occur as a contiguous run inside the second list? -/
def containsChars (needle : List Char) : List Char → Bool
  | [] => startsWithChars needle []
  | c :: cs => startsWithChars needle (c :: cs) || containsChars needle cs

/-- `hay.includes(sub)` from JavaScript. -/
def strIncludes (hay sub : String) : Bool :=
  containsChars sub.toList hay.toList

/-- The transient-session signature test of `executeWithRecovery`
(WhatsAppManager.js lines 1352-1354). -/
def isSessionError (msg : String) : Bool :=
  strIncludes msg "Session closed" ||
  strIncludes msg "Protocol error" ||
  strIncludes msg "Target closed"

/-! ### createInstance -/

/-- The fresh record built by `createInstance` (lines 292-303). -/
def newInstanceData : Instance :=
  { status := .initializing
    qr := none
    hasValidAuth := false
    skipQR := false
    isRecovered := false
    reconnectAttempts := 0
    reconnecting := false
    keepAliveOn := false }

/-- `createInstance` (lines 253-324) for a caller-supplied id: fails when the
id is taken, otherwise registers a fresh record and reports `initializing`.
Returns the updated registry together with the outcome. -/
def createInstance (reg : Registry) (id : String) :
    Registry × Except String Status :=
  if (assocFind? reg id).isSome then
    (reg, .error ("Instance " ++ id ++ " already exists"))
  else
    (reg ++ [(id, newInstanceData)], .ok .initializing)

/-! ### attemptAutoReconnection -/

/-- Side effects of one `attemptAutoReconnection` call: whether
`reinitializeInstance` was invoked, and whether the
`instance_status_changed: failed` notification was emitted. -/
structure ReconnectEffects where
  reinitialized : Bool
  emittedFailed : Bool
deriving DecidableEq, Repr

/-- `attemptAutoReconnection` (lines 1791-1851) on a registered instance.
`reinitOk` is the oracle for whether `reinitializeInstance` succeeds
(its `client.initialize()` raced against the 120 s timeout).
On success `reinitializeInstance` has set `status = initializing`, `qr = null`
and swapped the client; on failure its catch block has set
`status = disconnected` (and the catch of `attemptAutoReconnection` clears
`reconnecting` and schedules a retry, which is a separate step). -/
def attemptAutoReconnection (inst : Instance) (reinitOk : Bool) :
    Instance × ReconnectEffects :=
  if inst.reconnecting then
    (inst, ⟨false, false⟩)
  else
    let attempts := inst.reconnectAttempts + 1
    if attempts > maxReconnectAttempts then
      ({ inst with
          reconnectAttempts := attempts
          status := .failed
          reconnecting := false },
       ⟨false, true⟩)
    else if reinitOk then
      ({ inst with
          reconnectAttempts := 0
          status := .initializing
          qr := none
          reconnecting := false },
       ⟨true, false⟩)
    else
      ({ inst with
          reconnectAttempts := attempts
          status := .disconnected
          qr := none
          reconnecting := false },
       ⟨true, false⟩)

/-- Iterate `attemptAutoReconnection` with a failing `reinitializeInstance`
(the scenario of 9 consecutive failed attempts). -/
def runFailedAttempts : Instance → Nat → Instance
  | inst, 0 => inst
  | inst, n + 1 => runFailedAttempts (attemptAutoReconnection inst false).1 n

/-- The per-instance guard of the auto-reconnection sweep
(`startAutoReconnection`, line 1758). -/
def sweepGuard (inst : Instance) : Bool :=
  inst.status = Status.disconnected && inst.hasValidAuth && !inst.reconnecting

/-- One tick of the 15 s sweep (lines 1754-1773): every registered instance
passing the guard is run through `attemptAutoReconnection`; the second
component lists the ids for which the reconnection attempt was invoked. -/
def sweepTick (reg : Registry) (reinitOk : String → Bool) :
    Registry × List String :=
  (reg.map fun p =>
      if sweepGuard p.2 then (p.1, (attemptAutoReconnection p.2 (reinitOk p.1)).1)
      else p,
   (reg.filter fun p => sweepGuard p.2).map Prod.fst)

/-! ### MessagingClient events (`setupClientEvents`, lines 331-618)

Several events have two handlers registered; both run in order, and the model
gives the combined final effect on the instance record. -/

/-- Events emitted by the client that mutate instance state. -/
inductive ClientEvent where
  | qr (payload : String)
  | authenticated
  | authFailure
  | ready
  | disconnected
  | message
deriving DecidableEq, Repr

/-- Combined effect of all handlers for one client event.
`qr` (line 334): when `skipQR && hasValidAuth` the session is demoted
(`skipQR = false`, `hasValidAuth = false`, status briefly `qr_required`),
then unconditionally `status = qr_ready` and the payload is stored.
`authenticated` (421 and 514): `hasValidAuth = true`, `skipQR = true`,
status `authenticated`.
`auth_failure` (430 and 529): first handler writes `auth_failed`, the second
then overwrites with `auth_failure`; flags cleared.
`ready` (464): status `ready`, QR cleared, auth flags set, keep-alive started.
`disconnected` (446 and 546): status `disconnected`, auth flags cleared,
keep-alive stopped, and the second handler resets `reconnectAttempts` to 0.
`message` (581): only refreshes `lastActivity`, which is not modelled. -/
def applyEvent (e : ClientEvent) (inst : Instance) : Instance :=
  match e with
  | .qr payload =>
    if inst.skipQR && inst.hasValidAuth then
      { inst with skipQR := false, hasValidAuth := false,
                  status := .qr_ready, qr := some payload }
    else
      { inst with status := .qr_ready, qr := some payload }
  | .authenticated =>
    { inst with hasValidAuth := true, skipQR := true, status := .authenticated }
  | .authFailure =>
    { inst with hasValidAuth := false, skipQR := false, status := .auth_failure }
  | .ready =>
    { inst with status := .ready, qr := none, hasValidAuth := true,
                skipQR := true, keepAliveOn := true }
  | .disconnected =>
    { inst with status := .disconnected, hasValidAuth := false, skipQR := false,
                keepAliveOn := false, reconnectAttempts := 0 }
  | .message => inst

/-- One atomic step acting on a single instance record, covering every site
that mutates `reconnectAttempts` or invokes `attemptAutoReconnection`:
a client event; one sweep visit (guarded, line 1758); the manual
`POST /reconnect` route (whatsappController.js line 185, which requires
`status == disconnected`); the self-rescheduled retry (line 1842, guarded by
`reconnectAttempts < maxReconnectAttempts` at fire time); a failed health
probe marking a ready instance disconnected (line 1707); and the delayed
`attemptAutoReconnection` calls scheduled about 1 s after that marking by
the keep-alive path (line 1272) and the health monitor (line 1712) — these
two fire with **no guard re-checked at fire time**, so `delayedReconnect`
runs `attemptAutoReconnection` on whatever state the instance has then. -/
inductive Step where
  | event (e : ClientEvent)
  | sweepVisit (reinitOk : Bool)
  | manualReconnect (reinitOk : Bool)
  | scheduledRetry (reinitOk : Bool)
  | delayedReconnect (reinitOk : Bool)
  | healthFail
deriving DecidableEq, Repr

/-- Apply one step to an instance record. -/
def stepInstance (s : Step) (inst : Instance) : Instance :=
  match s with
  | .event e => applyEvent e inst
  | .sweepVisit ok =>
    if sweepGuard inst then (attemptAutoReconnection inst ok).1 else inst
  | .manualReconnect ok =>
    if inst.status = Status.disconnected then (attemptAutoReconnection inst ok).1
    else inst
  | .scheduledRetry ok =>
    if inst.reconnectAttempts < maxReconnectAttempts then
      (attemptAutoReconnection inst ok).1
    else inst
  | .delayedReconnect ok => (attemptAutoReconnection inst ok).1
  | .healthFail =>
    if inst.status = Status.ready then { inst with status := .disconnected }
    else inst

/-! ### Profile picture cache (`getProfilePicWithCache`, lines 1061-1110) -/

/-- A cache entry `{url, timestamp}`; `url` is `null` for a negative result. -/
structure CacheEntry where
  url : Option String
  timestamp : Int
deriving DecidableEq, Repr

/-- `this.profilePicCache`, keyed by the string `instanceId + ":" + contactId`. -/
abbrev PicCache := List (String × CacheEntry)

/-- `this.cacheExpiry = 30 * 60 * 1000` (line 16). -/
def cacheExpiry : Int := 30 * 60 * 1000

/-- Outcome of racing `contact.getProfilePicUrl()` against the per-item
timeout: a URL, or any failure or timeout. -/
inductive FetchResult where
  | ok (url : String)
  | err
deriving DecidableEq, Repr

/-- Result of one `getProfilePicWithCache` call: the returned value, the cache
afterwards, and whether the client was consulted. -/
structure PicLookupResult where
  value : Option String
  cache : PicCache
  clientInvoked : Bool
deriving DecidableEq, Repr

/-- The fetch branch of `getProfilePicWithCache` (the `try` block, lines
1070-1109): bail out with `null` when the instance is absent or not ready;
otherwise consult the client and cache the outcome, caching `null` on failure
or timeout exactly like a URL on success. -/
def profilePicFetch (cache : PicCache) (reg : Registry) (now : Int)
    (fetchResult : FetchResult) (instanceId cacheKey : String) :
    PicLookupResult :=
  match assocFind? reg instanceId with
  | none => ⟨none, cache, false⟩
  | some inst =>
    if inst.status = Status.ready then
      match fetchResult with
      | .ok url => ⟨some url, assocSet cache cacheKey ⟨some url, now⟩, true⟩
      | .err => ⟨none, assocSet cache cacheKey ⟨none, now⟩, true⟩
    else ⟨none, cache, false⟩

/-- `getProfilePicWithCache` (lines 1061-1110): a cache entry younger than 30
minutes is returned as-is (its `url` may be `null`); otherwise the fetch
branch runs. -/
def getProfilePicWithCache (cache : PicCache) (reg : Registry) (now : Int)
    (fetchResult : FetchResult) (instanceId contactId : String) :
    PicLookupResult :=
  let cacheKey := instanceId ++ ":" ++ contactId
  match assocFind? cache cacheKey with
  | some cached =>
    if now - cached.timestamp < cacheExpiry then ⟨cached.url, cache, false⟩
    else profilePicFetch cache reg now fetchResult instanceId cacheKey
  | none => profilePicFetch cache reg now fetchResult instanceId cacheKey

/-! ### Batched enrichment (`getMultipleProfilePics`, lines 1120-1187)

The per-item call `getProfilePicWithCache` never throws (it catches all
errors and returns `null`), so every promise handed to `Promise.allSettled`
fulfills; the abstraction `fetch : String → Option String` gives the settled
per-item value.  `timedOut b` tells whether the overall batch timeout
(`2 ×` the per-item timeout) fired for batch number `b`; in that case the
catch block writes `null` for every id of the batch. -/

/-- The result map being built, in insertion order. -/
abbrev PicMap := List (String × Option String)

/-- Processing of one batch: either the `catch` branch writing `null` for
every id (batch timeout), or the `forEach` over the settled results. -/
def processBatch (fetch : String → Option String) (timedOut : Bool)
    (batch : List String) (m : PicMap) : PicMap :=
  if timedOut then
    batch.foldl (fun acc c => assocSet acc c none) m
  else
    batch.foldl (fun acc c => assocSet acc c (fetch c)) m

/-- The batch loop `for (let i = 0; i < contactIds.length; i += batchSize)`,
written with explicit fuel (one unit per loop iteration suffices, since each
iteration consumes at least one id when `batchSize ≥ 1`; the source loops
forever when `batchSize = 0`, which no caller does — callers pass 3, 4 or 5). -/
def picsGo (fetch : String → Option String) (timedOut : Nat → Bool)
    (batchSize : Nat) : Nat → Nat → List String → PicMap → PicMap
  | 0, _, _, m => m
  | _ + 1, _, [], m => m
  | fuel + 1, bIdx, c :: cs, m =>
    picsGo fetch timedOut batchSize fuel (bIdx + 1) ((c :: cs).drop batchSize)
      (processBatch fetch (timedOut bIdx) ((c :: cs).take batchSize) m)

/-- `getMultipleProfilePics` (lines 1120-1187). -/
def getMultipleProfilePics (fetch : String → Option String)
    (timedOut : Nat → Bool) (contactIds : List String) (batchSize : Nat) :
    PicMap :=
  picsGo fetch timedOut batchSize contactIds.length 0 contactIds []

/-! ### Chat listing (`getChats`, lines 889-1002) -/

/-- The fields of a chat relevant to sorting, pagination and the
contact/group split.  `timestamp` is `Option` because the source treats a
missing timestamp as `0` via `(b.timestamp || 0)`. -/
structure Chat where
  id : String
  isGroup : Bool
  timestamp : Option Int
deriving DecidableEq, Repr

/-- The sort key `chat.timestamp || 0` (line 903). -/
def chatKey (c : Chat) : Int := c.timestamp.getD 0

/-- The comparator `(a, b) => (b.timestamp || 0) - (a.timestamp || 0)` orders
by key descending; `chatGE a b` holds when `a` may come before `b`. -/
def chatGE (a b : Chat) : Prop := chatKey b ≤ chatKey a

instance : DecidableRel chatGE := fun a b =>
  inferInstanceAs (Decidable (chatKey b ≤ chatKey a))

instance : IsTotal Chat chatGE :=
  ⟨fun a b => (le_total (chatKey a) (chatKey b)).symm⟩

instance : IsTrans Chat chatGE :=
  ⟨fun _ _ _ h1 h2 => le_trans h2 h1⟩

/-- `allChats.sort(...)` (line 903): JavaScript `Array.prototype.sort` is a
stable sort, modelled by the stable `insertionSort` on the same total
preorder. -/
def sortChats (l : List Chat) : List Chat := List.insertionSort chatGE l

/-- The `pagination` object returned by `getChats` (lines 984-992). -/
structure Pagination where
  limit : Nat
  offset : Nat
  hasMore : Bool
  nextOffset : Option Nat
  currentPage : Nat
  totalPages : Nat
  returnedCount : Nat
deriving DecidableEq, Repr

/-- The shape of the `getChats` response relevant to the claims (profile
picture enrichment of the returned page is `getMultipleProfilePics` above). -/
structure ChatsResult where
  contacts : List Chat
  groups : List Chat
  totalChats : Nat
  pagination : Pagination
deriving DecidableEq, Repr

/-- `getChats` (lines 889-1002) after the client returned `allChats`: sort by
timestamp descending, paginate with `slice(offset, offset + limit)`, split
into contacts and groups, and report pagination metadata.
`Math.ceil(totalChats / limit)` is `(totalChats + limit - 1) / limit` in
natural-number arithmetic (for `limit ≥ 1`; `limit = 0` would make the
source produce `Infinity`). -/
def getChats (allChats : List Chat) (limit offset : Nat) : ChatsResult :=
  let sorted := sortChats allChats
  let totalChats := sorted.length
  let paginated := (sorted.drop offset).take limit
  { contacts := paginated.filter fun c => !c.isGroup
    groups := paginated.filter fun c => c.isGroup
    totalChats := totalChats
    pagination :=
      { limit := limit
        offset := offset
        hasMore := decide (offset + limit < totalChats)
        nextOffset := if offset + limit < totalChats then some (offset + limit)
                      else none
        currentPage := offset / limit + 1
        totalPages := (totalChats + limit - 1) / limit
        returnedCount := paginated.length } }

/-- The HTTP layer's limit computation
`Math.min(parseInt(req.query.limit) || 50, 200)`
(whatsappController.js line 380).  `none` stands for a missing or unparsable
query value (`parseInt` gave `NaN`); note that `0 || 50` is `50`. -/
def clampLimit (q : Option Int) : Int :=
  min (match q with
       | none => 50
       | some n => if n = 0 then 50 else n) 200

/-! ### destroyInstance (lines 800-836) -/

/-- Result of `destroyInstance`: the outcome surfaced to the caller, the
registry afterwards, whether the session directory was removed, and whether
the `instance_destroyed` notification was emitted.  `destroyErr` is the
oracle for `client.destroy()`: `none` means it succeeded, `some msg` that it
threw `msg`.  The whole body runs inside a `try` whose `catch` rethrows, so a
throwing teardown aborts the remaining steps. -/
structure DestroyOutcome where
  result : Except String Unit
  registry : Registry
  sessionDeleted : Bool
  emittedDestroyed : Bool
deriving Repr

/-- `destroyInstance` (lines 800-836). -/
def destroyInstance (reg : Registry) (id : String) (destroyErr : Option String) :
    DestroyOutcome :=
  match assocFind? reg id with
  | none => ⟨.error ("Instance " ++ id ++ " not found"), reg, false, false⟩
  | some _ =>
    match destroyErr with
    | some msg => ⟨.error msg, reg, false, false⟩
    | none => ⟨.ok (), assocErase reg id, true, true⟩

/-! ### recoverInstance and attemptSessionRecovery (lines 160-246, 1305-1337) -/

/-- The record registered by `recoverInstance` (lines 208-222); `hasAuth` is
the outcome of the `hasValidSession` heuristic.  The source omits
`reconnectAttempts`/`reconnecting` (JS `undefined`), read back as `0`/`false`. -/
def recoveredInstanceData (hasAuth : Bool) : Instance :=
  { status := if hasAuth then .authenticating else .recovering
    qr := none
    hasValidAuth := hasAuth
    skipQR := hasAuth
    isRecovered := true
    reconnectAttempts := 0
    reconnecting := false
    keepAliveOn := false }

/-- `recoverInstance` (lines 160-246), driven by three oracles: whether the
session directory exists, the `hasValidSession` heuristic, and whether
`client.initialize()` succeeds.  Returns the registry afterwards and whether
the call threw.  When the directory is missing it returns early without
touching the registry; otherwise it registers a fresh recovered record and
initializes the client; if initialization throws, the `catch` deletes the
registry entry and rethrows. -/
def recoverInstance (reg : Registry) (id : String)
    (sessionExists hasAuth initOk : Bool) : Registry × Bool :=
  if !sessionExists then (reg, false)
  else
    let reg1 := assocSet reg id (recoveredInstanceData hasAuth)
    if initOk then (reg1, false)
    else (assocErase reg1 id, true)

/-- `attemptSessionRecovery` (lines 1305-1337): mark the instance
`recovering`, best-effort destroy the old client, then rebuild it via
`recoverInstance`; any throw is caught and reported as `false`. -/
def attemptSessionRecovery (reg : Registry) (id : String)
    (sessionExists hasAuth initOk : Bool) : Registry × Bool :=
  match assocFind? reg id with
  | none => (reg, false)
  | some inst =>
    let reg1 := assocSet reg id { inst with status := .recovering }
    let p := recoverInstance reg1 id sessionExists hasAuth initOk
    if p.2 then (p.1, false) else (p.1, true)

/-! ### executeWithRecovery (lines 1346-1378) -/

/-- Outcome of one wrapped operation execution. -/
inductive Outcome (α : Type) where
  | ok (a : α)
  | err (msg : String)
deriving DecidableEq, Repr

/-- The error built on line 1371 when recovery fails. -/
def recoveryFailedMessage (id : String) : String :=
  "Session recovery failed for instance " ++ id ++
  ". Please reinitialize the instance."

/-- What a caller of `executeWithRecovery` observes: the returned or thrown
outcome, the registry afterwards, and whether recovery and the retry were
invoked. -/
structure ExecOutcome (α : Type) where
  result : Outcome α
  registry : Registry
  recoveryInvoked : Bool
  retryInvoked : Bool
deriving DecidableEq, Repr

/-- `executeWithRecovery` (lines 1346-1378).  `first` is the outcome of the
first execution of the wrapped operation and `retry` the outcome of its
(sole possible) re-execution; the recovery oracle parameters are those of
`attemptSessionRecovery`. -/
def executeWithRecovery {α : Type} (reg : Registry) (id : String)
    (first : Outcome α) (sessionExists hasAuth initOk : Bool)
    (retry : Outcome α) : ExecOutcome α :=
  match first with
  | .ok a => ⟨.ok a, reg, false, false⟩
  | .err msg =>
    if isSessionError msg then
      let p := attemptSessionRecovery reg id sessionExists hasAuth initOk
      if p.2 then ⟨retry, p.1, true, true⟩
      else ⟨.err (recoveryFailedMessage id), p.1, true, false⟩
    else ⟨.err msg, reg, false, false⟩

/-! ### Status queries (lines 757-793) and the ready gate -/

/-- `getInstanceStatus` (lines 757-773), reduced to the status field. -/
def getInstanceStatus (reg : Registry) (id : String) : Except String Status :=
  match assocFind? reg id with
  | none => .error "Instance not found"
  | some inst => .ok inst.status

/-- The common preamble of every user-facing operation (e.g. lines 667-674):
unknown id throws not-found, non-ready status throws not-ready. -/
def requireReady (reg : Registry) (id : String) : Except String Instance :=
  match assocFind? reg id with
  | none => .error ("Instance " ++ id ++ " not found")
  | some inst =>
    if inst.status = Status.ready then .ok inst
    else .error ("Instance " ++ id ++ " is not ready")

/-! ### Association list lemmas -/

theorem assocFind_eq_none_iff {β : Type} {m : List (String × β)} {k : String} :
    assocFind? m k = none ↔ k ∉ m.map Prod.fst := by
  induction m with
  | nil => simp [assocFind?]
  | cons p rest ih =>
    obtain ⟨k', v⟩ := p
    by_cases h : k' = k
    · subst h
      simp [assocFind?]
    · simp [assocFind?, h, ih, Ne.symm h]

theorem assocFind_isSome_iff {β : Type} {m : List (String × β)} {k : String} :
    (assocFind? m k).isSome = true ↔ k ∈ m.map Prod.fst := by
  rw [Option.isSome_iff_ne_none, ne_eq, assocFind_eq_none_iff]
  exact not_not

theorem assocSet_of_not_mem {β : Type} {m : List (String × β)} {k : String}
    (v : β) (h : k ∉ m.map Prod.fst) :
    assocSet m k v = m ++ [(k, v)] := by
  have hnone : assocFind? m k = none := assocFind_eq_none_iff.mpr h
  simp [assocSet, hnone]

theorem assocErase_find_self {β : Type} (m : List (String × β)) (k : String) :
    assocFind? (assocErase m k) k = none := by
  induction m with
  | nil => rfl
  | cons p rest ih =>
    obtain ⟨k', v⟩ := p
    by_cases h : k' = k
    · simpa [assocErase, h] using ih
    · simpa [assocErase, h, assocFind?] using ih

theorem assocFind_of_key_nodup {β : Type} {m : List (String × β)}
    (h : (m.map Prod.fst).Nodup) {k : String} {v w : β}
    (hv : (k, v) ∈ m) (hw : (k, w) ∈ m) : v = w := by
  induction m with
  | nil => cases hv
  | cons p rest ih =>
    simp only [List.map_cons, List.nodup_cons] at h
    rcases List.mem_cons.mp hv with hv1 | hv1 <;>
      rcases List.mem_cons.mp hw with hw1 | hw1
    · rw [← hv1] at hw1
      exact congrArg Prod.snd hw1.symm
    · exact absurd (List.mem_map_of_mem Prod.fst hw1) (by simp [← hv1] at h ⊢; exact h.1)
    · exact absurd (List.mem_map_of_mem Prod.fst hv1) (by simp [← hw1] at h ⊢; exact h.1)
    · exact ih h.2 hv1 hw1

/-! ### C1 -/

/-- C1: `executeWithRecovery` intercepts exactly the errors whose message
contains one of the signatures `Session closed`, `Protocol error`,
`Target closed`.  On such an error it performs recovery; if recovery succeeds
the operation is retried exactly once and the retry's outcome (result or
error) is returned; if recovery fails the distinct
`Session recovery failed … Please reinitialize the instance.` error is
returned instead of the original one.  Any other error propagates unchanged
with no recovery and no retry, and a first-try success is returned directly. -/
theorem C1_executeWithRecovery {α : Type} (reg : Registry) (id msg : String)
    (se ha io : Bool) (retry : Outcome α) :
    (isSessionError msg = true →
      ((attemptSessionRecovery reg id se ha io).2 = true →
        executeWithRecovery reg id (.err msg) se ha io retry
          = ⟨retry, (attemptSessionRecovery reg id se ha io).1, true, true⟩)
      ∧ ((attemptSessionRecovery reg id se ha io).2 = false →
        executeWithRecovery reg id (.err msg) se ha io retry
          = ⟨.err (recoveryFailedMessage id),
             (attemptSessionRecovery reg id se ha io).1, true, false⟩))
    ∧ (isSessionError msg = false →
      executeWithRecovery reg id (.err msg) se ha io retry
        = ⟨.err msg, reg, false, false⟩)
    ∧ (∀ a : α, executeWithRecovery reg id (.ok a) se ha io retry
        = ⟨.ok a, reg, false, false⟩) := by
  refine ⟨fun hs => ⟨fun hr => ?_, fun hr => ?_⟩, fun hs => ?_, fun a => rfl⟩
  · simp [executeWithRecovery, hs, hr]
  · simp [executeWithRecovery, hs, hr]
  · simp [executeWithRecovery, hs]

/-- Witness for C1: for a dead session (`Session closed`) on an unregistered
id, recovery fails and the caller sees the recovery-failed error, with the
retry never invoked. -/
theorem C1_executeWithRecovery_witness :
    executeWithRecovery ([] : Registry) "i" (Outcome.err "Session closed")
        false false false (Outcome.ok (7 : Nat))
      = ⟨Outcome.err (recoveryFailedMessage "i"), [], true, false⟩ :=
  ((C1_executeWithRecovery [] "i" "Session closed" false false false
      (Outcome.ok 7)).1 (by decide)).2 rfl

/-! ### C2 -/

/-- C2: a reconnection attempt first increments `reconnectAttempts`; when the
incremented value exceeds `maxReconnectAttempts` (8) it sets
`status = failed`, clears `reconnecting`, emits the status-changed
notification and performs no reinitialization.  Consequently, starting from
`reconnectAttempts = 0`, a run of 9 consecutive failed reconnection attempts
leaves the instance with `status = failed`. -/
theorem C2_attemptAutoReconnection (inst : Instance) :
    (inst.reconnecting = false →
      maxReconnectAttempts < inst.reconnectAttempts + 1 →
      ∀ ok : Bool, attemptAutoReconnection inst ok
        = ({ inst with
              reconnectAttempts := inst.reconnectAttempts + 1
              status := .failed
              reconnecting := false },
           ⟨false, true⟩))
    ∧ (inst.reconnectAttempts = 0 → inst.reconnecting = false →
        (runFailedAttempts inst 9).status = .failed) := by
  obtain ⟨st, qr, hv, sq, ir, ra, rc, ka⟩ := inst
  constructor
  · intro h1 h2 ok
    simp only at h1
    subst h1
    simp [attemptAutoReconnection, h2]
  · intro h1 h2
    simp only at h1 h2
    subst h1
    subst h2
    rfl

/-- Witness for C2: a concrete authenticated, disconnected instance with the
counter at 0 ends in `failed` after 9 consecutive failed attempts. -/
theorem C2_attemptAutoReconnection_witness :
    (runFailedAttempts
      { status := .disconnected, qr := none, hasValidAuth := true,
        skipQR := true, isRecovered := false, reconnectAttempts := 0,
        reconnecting := false, keepAliveOn := false } 9).status = .failed :=
  (C2_attemptAutoReconnection _).2 rfl rfl

/-! ### C3 -/

/-- C3: the auto-reconnection sweep invokes a reconnection attempt exactly
for the registered instances with `status == disconnected`,
`hasValidAuth == true` and `reconnecting == false`; an instance with
`hasValidAuth = false` is never picked by the sweep, and
`attemptAutoReconnection` returns immediately, changing nothing, when
`reconnecting` is already set. -/
theorem C3_autoReconnectSweep (reg : Registry) (reinitOk : String → Bool)
    (id : String) (inst : Instance) :
    ((reg.map Prod.fst).Nodup → (id, inst) ∈ reg →
      (id ∈ (sweepTick reg reinitOk).2 ↔
        inst.status = Status.disconnected ∧ inst.hasValidAuth = true ∧
          inst.reconnecting = false))
    ∧ ((reg.map Prod.fst).Nodup → (id, inst) ∈ reg →
        inst.hasValidAuth = false → id ∉ (sweepTick reg reinitOk).2)
    ∧ (∀ (i : Instance) (ok : Bool), i.reconnecting = true →
        attemptAutoReconnection i ok = (i, ⟨false, false⟩)) := by
  have hguard : ∀ i : Instance, sweepGuard i = true ↔
      i.status = Status.disconnected ∧ i.hasValidAuth = true ∧
        i.reconnecting = false := by
    intro i
    simp [sweepGuard, and_assoc]
  have hmain : (reg.map Prod.fst).Nodup → (id, inst) ∈ reg →
      (id ∈ (sweepTick reg reinitOk).2 ↔
        inst.status = Status.disconnected ∧ inst.hasValidAuth = true ∧
          inst.reconnecting = false) := by
    intro hnd hmem
    rw [← hguard]
    constructor
    · intro hin
      simp only [sweepTick, List.mem_map, List.mem_filter] at hin
      obtain ⟨⟨k, i⟩, ⟨hi, hg⟩, hk⟩ := hin
      cases hk
      rw [assocFind_of_key_nodup hnd hmem hi]
      exact hg
    · intro hg
      simp only [sweepTick, List.mem_map, List.mem_filter]
      exact ⟨(id, inst), ⟨hmem, hg⟩, rfl⟩
  refine ⟨hmain, ?_, ?_⟩
  · intro hnd hmem hauth hin
    have := (hmain hnd hmem).mp hin
    rw [hauth] at this
    exact absurd this.2.1 (by simp)
  · intro i ok hrec
    simp [attemptAutoReconnection, hrec]

/-- A disconnected instance with valid stored credentials. -/
def demoAuthDisconnected : Instance :=
  { status := .disconnected, qr := none, hasValidAuth := true,
    skipQR := true, isRecovered := false, reconnectAttempts := 0,
    reconnecting := false, keepAliveOn := false }

/-- A disconnected instance whose stored credentials are invalid. -/
def demoNoAuthDisconnected : Instance :=
  { status := .disconnected, qr := none, hasValidAuth := false,
    skipQR := false, isRecovered := false, reconnectAttempts := 0,
    reconnecting := false, keepAliveOn := false }

/-- A two-instance registry for the sweep scenario. -/
def demoSweepReg : Registry :=
  [("a", demoAuthDisconnected), ("b", demoNoAuthDisconnected)]

/-- Witness for C3: in a two-instance registry, the sweep picks exactly the
disconnected authenticated instance and skips the one without valid auth. -/
theorem C3_autoReconnectSweep_witness :
    "a" ∈ (sweepTick demoSweepReg (fun _ => true)).2
    ∧ "b" ∉ (sweepTick demoSweepReg (fun _ => true)).2 :=
  ⟨((C3_autoReconnectSweep demoSweepReg (fun _ => true) "a"
        demoAuthDisconnected).1 (by decide) (by decide)).mpr (by decide),
   (C3_autoReconnectSweep demoSweepReg (fun _ => true) "b"
        demoNoAuthDisconnected).2.1 (by decide) (by decide) rfl⟩

/-! ### C7 -/

/-- A one-instance registry for the destroy scenario. -/
def demoDestroyReg : Registry := [("a", newInstanceData)]

/-- Counterexample for C7: the claim says destroy errors are swallowed and
that a failing client teardown does not prevent the session-directory
deletion and Registry removal.  In the source, the whole body of
`destroyInstance` sits in a `try` whose `catch` rethrows, and
`client.destroy()` is not individually guarded: when it throws, the error
propagates to the caller, the Registry entry stays, the session directory is
not deleted, and no destroyed notification is emitted. -/
theorem C7_destroyInstance_counterexample :
    (destroyInstance demoDestroyReg "a" (some "Protocol error: destroy failed")).result
      = .error "Protocol error: destroy failed"
    ∧ (destroyInstance demoDestroyReg "a"
        (some "Protocol error: destroy failed")).registry = demoDestroyReg
    ∧ (destroyInstance demoDestroyReg "a"
        (some "Protocol error: destroy failed")).sessionDeleted = false
    ∧ (destroyInstance demoDestroyReg "a"
        (some "Protocol error: destroy failed")).emittedDestroyed = false :=
  ⟨rfl, rfl, rfl, rfl⟩

/-- C7 (amended): for a registered id, `destroyInstance` with a successful
client teardown removes the Registry entry, deletes the SessionStore
directory and emits the destroyed notification; but when the client teardown
throws, the error propagates to the caller (it is not swallowed) and the
Registry entry, session directory and notification are all left untouched. -/
theorem C7_destroyInstance (reg : Registry) (id : String) (inst : Instance)
    (h : assocFind? reg id = some inst) :
    (destroyInstance reg id none
      = ⟨.ok (), assocErase reg id, true, true⟩)
    ∧ assocFind? (assocErase reg id) id = none
    ∧ (∀ msg : String,
        destroyInstance reg id (some msg) = ⟨.error msg, reg, false, false⟩) := by
  refine ⟨?_, assocErase_find_self reg id, fun msg => ?_⟩ <;>
    simp [destroyInstance, h]

/-- Witness for C7 (amended): destroying the demo instance with a successful
teardown empties the registry, deletes the session and emits. -/
theorem C7_destroyInstance_witness :
    (destroyInstance demoDestroyReg "a" none
      = ⟨.ok (), assocErase demoDestroyReg "a", true, true⟩)
    ∧ assocFind? (assocErase demoDestroyReg "a") "a" = none
    ∧ (∀ msg : String, destroyInstance demoDestroyReg "a" (some msg)
        = ⟨.error msg, demoDestroyReg, false, false⟩) :=
  C7_destroyInstance demoDestroyReg "a" newInstanceData rfl

/-! ### C8 -/

/-- C8: `createInstance` with an id already present in the Registry fails
with the `already exists` error and leaves the Registry — in particular the
existing record — completely unchanged; with a fresh id it appends exactly
one new `initializing` record; and it preserves key-uniqueness, so at most
one Instance per id ever exists. -/
theorem C8_createInstance (reg : Registry) (id : String) :
    ((assocFind? reg id).isSome = true →
      createInstance reg id
        = (reg, .error ("Instance " ++ id ++ " already exists")))
    ∧ ((assocFind? reg id).isSome = false →
      createInstance reg id
        = (reg ++ [(id, newInstanceData)], .ok .initializing))
    ∧ ((reg.map Prod.fst).Nodup → ((createInstance reg id).1.map Prod.fst).Nodup) := by
  refine ⟨fun h => ?_, fun h => ?_, fun hnd => ?_⟩
  · simp [createInstance, h]
  · simp [createInstance, h]
  · by_cases h : (assocFind? reg id).isSome = true
    · simpa [createInstance, h] using hnd
    · have hnot : id ∉ reg.map Prod.fst := by
        rw [← assocFind_isSome_iff]
        simpa using h
      simp only [createInstance, h, Bool.false_eq_true, if_false, List.map_append]
      simpa [List.nodup_append] using
        ⟨hnd, fun x hx => hnot (List.mem_map_of_mem Prod.fst hx)⟩

/-- Witness for C8: creating `"a"` twice — the second call fails with the
`already exists` error and leaves the one-entry registry unchanged. -/
theorem C8_createInstance_witness :
    createInstance demoDestroyReg "a"
      = (demoDestroyReg, .error ("Instance " ++ "a" ++ " already exists")) :=
  (C8_createInstance demoDestroyReg "a").1 rfl

/-! ### C10 -/

/-- C10: when the recovery primitive used by the Operation Recovery Wrapper
fails while rebuilding the client (`recoverInstance`'s `client.initialize()`
throws), `recoverInstance`'s catch deletes the instance record from the
Registry and `attemptSessionRecovery` reports failure; afterwards a status
query answers `Instance not found` and the ready-gate of every operation
answers not-found rather than a not-ready status; the wrapper's registry
reflects the deletion as well. -/
theorem C10_recoveryFailureDeletesInstance (reg : Registry) (id : String)
    (inst : Instance) (hasAuth : Bool) (h : assocFind? reg id = some inst) :
    (attemptSessionRecovery reg id true hasAuth false).2 = false
    ∧ assocFind? (attemptSessionRecovery reg id true hasAuth false).1 id = none
    ∧ getInstanceStatus (attemptSessionRecovery reg id true hasAuth false).1 id
        = .error "Instance not found"
    ∧ requireReady (attemptSessionRecovery reg id true hasAuth false).1 id
        = .error ("Instance " ++ id ++ " not found")
    ∧ (∀ (msg : String) (retry : Outcome Unit), isSessionError msg = true →
        assocFind? (executeWithRecovery reg id (.err msg) true hasAuth false
            retry).registry id = none) := by
  have hpair : attemptSessionRecovery reg id true hasAuth false
      = (assocErase (assocSet (assocSet reg id { inst with status := .recovering })
          id (recoveredInstanceData hasAuth)) id, false) := by
    simp [attemptSessionRecovery, h, recoverInstance]
  have hfindnone :
      assocFind? (attemptSessionRecovery reg id true hasAuth false).1 id = none := by
    rw [hpair]
    exact assocErase_find_self _ id
  have hflag : (attemptSessionRecovery reg id true hasAuth false).2 = false := by
    rw [hpair]
  refine ⟨hflag, hfindnone, ?_, ?_, ?_⟩
  · simp [getInstanceStatus, hfindnone]
  · simp [requireReady, hfindnone]
  · intro msg retry hs
    simpa [executeWithRecovery, hs, hflag] using hfindnone

/-- Witness for C10: a failed rebuild of the demo instance removes it from
the registry and the status query reports not-found. -/
theorem C10_recoveryFailureDeletesInstance_witness :
    (attemptSessionRecovery demoDestroyReg "a" true true false).2 = false
    ∧ assocFind? (attemptSessionRecovery demoDestroyReg "a" true true false).1 "a"
        = none
    ∧ getInstanceStatus (attemptSessionRecovery demoDestroyReg "a" true true
        false).1 "a" = .error "Instance not found"
    ∧ requireReady (attemptSessionRecovery demoDestroyReg "a" true true
        false).1 "a" = .error ("Instance " ++ "a" ++ " not found")
    ∧ (∀ (msg : String) (retry : Outcome Unit), isSessionError msg = true →
        assocFind? (executeWithRecovery demoDestroyReg "a" (.err msg) true true
            false retry).registry "a" = none) :=
  C10_recoveryFailureDeletesInstance demoDestroyReg "a" newInstanceData true rfl

/-! ### C5 -/

/-- Counterexample for C5: the claim says that whenever the cache entry is
absent (or stale) the client is consulted and the outcome is written to the
cache.  In the source the fetch branch first checks
`if (!instance || instance.status !== 'ready') return null;` — with no
registered instance (or a non-ready one) the client is never consulted and
nothing is cached, even though a URL was available. -/
theorem C5_getProfilePicWithCache_counterexample :
    getProfilePicWithCache [] [] 0 (.ok "https://pic") "i" "c"
      = ⟨none, [], false⟩ := rfl

/-- C5 (amended): a lookup finding a cache entry younger than 30 minutes
returns the cached value (URL or `null`) without consulting the client and
without touching the cache.  When the entry is absent or at least 30 minutes
old **and the instance is registered with status `ready`**, the client is
consulted and the outcome is written to the cache, a failed or timed-out
lookup being cached as `null` exactly like a successful one is cached as its
URL. -/
theorem C5_getProfilePicWithCache (cache : PicCache) (reg : Registry)
    (now : Int) (fr : FetchResult) (instanceId contactId : String) :
    (∀ c : CacheEntry,
      assocFind? cache (instanceId ++ ":" ++ contactId) = some c →
      now - c.timestamp < cacheExpiry →
      getProfilePicWithCache cache reg now fr instanceId contactId
        = ⟨c.url, cache, false⟩)
    ∧ (∀ inst : Instance,
        (assocFind? cache (instanceId ++ ":" ++ contactId) = none ∨
          ∃ c : CacheEntry,
            assocFind? cache (instanceId ++ ":" ++ contactId) = some c ∧
            ¬ now - c.timestamp < cacheExpiry) →
        assocFind? reg instanceId = some inst →
        inst.status = Status.ready →
        (fr = .err →
          getProfilePicWithCache cache reg now fr instanceId contactId
            = ⟨none,
               assocSet cache (instanceId ++ ":" ++ contactId) ⟨none, now⟩,
               true⟩)
        ∧ (∀ url : String, fr = .ok url →
            getProfilePicWithCache cache reg now fr instanceId contactId
              = ⟨some url,
                 assocSet cache (instanceId ++ ":" ++ contactId)
                   ⟨some url, now⟩,
                 true⟩)) := by
  constructor
  · intro c hc hfresh
    simp [getProfilePicWithCache, hc, hfresh]
  · intro inst hmiss hreg hready
    have hfetch : ∀ r : FetchResult,
        profilePicFetch cache reg now r instanceId
            (instanceId ++ ":" ++ contactId)
          = match r with
            | .ok url =>
              ⟨some url,
               assocSet cache (instanceId ++ ":" ++ contactId) ⟨some url, now⟩,
               true⟩
            | .err =>
              ⟨none,
               assocSet cache (instanceId ++ ":" ++ contactId) ⟨none, now⟩,
               true⟩ := by
      intro r
      cases r <;> simp [profilePicFetch, hreg, hready]
    rcases hmiss with hnone | ⟨c, hc, hstale⟩
    · constructor
      · intro he
        subst he
        simp [getProfilePicWithCache, hnone, hfetch]
      · intro url he
        subst he
        simp [getProfilePicWithCache, hnone, hfetch]
    · constructor
      · intro he
        subst he
        simp [getProfilePicWithCache, hc, hstale, hfetch]
      · intro url he
        subst he
        simp [getProfilePicWithCache, hc, hstale, hfetch]

/-- Witness for C5 (amended): a cache entry written at time 0 and read at
time 100 ms is returned as-is with the client not consulted; and with an
empty cache but a ready registered instance, a failed lookup is cached as
`null`. -/
theorem C5_getProfilePicWithCache_witness :
    (getProfilePicWithCache [("i:c", ⟨some "u", 0⟩)] [] 100 .err "i" "c"
      = ⟨some "u", [("i:c", ⟨some "u", 0⟩)], false⟩)
    ∧ (getProfilePicWithCache []
        [("i", { status := .ready, qr := none, hasValidAuth := true,
                 skipQR := true, isRecovered := false, reconnectAttempts := 0,
                 reconnecting := false, keepAliveOn := true })] 100 .err "i" "c"
      = ⟨none, [("i:c", ⟨none, 100⟩)], true⟩) :=
  ⟨(C5_getProfilePicWithCache [("i:c", ⟨some "u", 0⟩)] [] 100 .err "i" "c").1
      ⟨some "u", 0⟩ rfl (by decide),
   (((C5_getProfilePicWithCache []
        [("i", { status := .ready, qr := none, hasValidAuth := true,
                 skipQR := true, isRecovered := false, reconnectAttempts := 0,
                 reconnecting := false, keepAliveOn := true })] 100 .err "i"
        "c").2 _ (Or.inl rfl) rfl rfl).1 rfl)⟩

/-! ### C4 -/

/-- The value assigned to one id: `null` for a timed-out batch, else the
settled per-item outcome. -/
def batchValue (fetch : String → Option String) (timedOut : Bool)
    (c : String) : Option String :=
  if timedOut then none else fetch c

/-- Closed form of the batch loop for key-distinct inputs: the entries
appended for each batch, in order. -/
def assignGo (fetch : String → Option String) (timedOut : Nat → Bool)
    (batchSize : Nat) : Nat → Nat → List String → PicMap
  | 0, _, _ => []
  | _ + 1, _, [] => []
  | fuel + 1, bIdx, c :: cs =>
    ((c :: cs).take batchSize).map
        (fun x => (x, batchValue fetch (timedOut bIdx) x))
      ++ assignGo fetch timedOut batchSize fuel (bIdx + 1) ((c :: cs).drop batchSize)

theorem map_fst_pairup (v : String → Option String) (l : List String) :
    (l.map fun y => (y, v y)).map Prod.fst = l := by
  induction l with
  | nil => rfl
  | cons x xs ih => simp [ih]

theorem foldl_assocSet_append (v : String → Option String) :
    ∀ (batch : List String) (m : PicMap), batch.Nodup →
      (∀ c ∈ batch, c ∉ m.map Prod.fst) →
      batch.foldl (fun acc c => assocSet acc c (v c)) m
        = m ++ batch.map fun c => (c, v c)
  | [], m, _, _ => by simp
  | c :: cs, m, hnd, hdisj => by
    have hc : c ∉ m.map Prod.fst := hdisj c (List.mem_cons_self c cs)
    have hstep : assocSet m c (v c) = m ++ [(c, v c)] :=
      assocSet_of_not_mem (v c) hc
    have hnd' : cs.Nodup := (List.nodup_cons.mp hnd).2
    have hdisj' : ∀ x ∈ cs, x ∉ (m ++ [(c, v c)]).map Prod.fst := by
      intro x hx
      simp only [List.map_append, List.mem_append, List.map_cons, List.map_nil,
        List.mem_singleton, not_or]
      exact ⟨hdisj x (List.mem_cons_of_mem c hx),
        by rintro rfl; exact (List.nodup_cons.mp hnd).1 hx⟩
    calc (c :: cs).foldl (fun acc x => assocSet acc x (v x)) m
        = cs.foldl (fun acc x => assocSet acc x (v x)) (m ++ [(c, v c)]) := by
          simp [hstep]
      _ = (m ++ [(c, v c)]) ++ cs.map fun x => (x, v x) :=
          foldl_assocSet_append v cs (m ++ [(c, v c)]) hnd' hdisj'
      _ = m ++ (c :: cs).map fun x => (x, v x) := by simp

theorem processBatch_append (fetch : String → Option String) (t : Bool)
    (batch : List String) (m : PicMap) (hnd : batch.Nodup)
    (hdisj : ∀ c ∈ batch, c ∉ m.map Prod.fst) :
    processBatch fetch t batch m
      = m ++ batch.map fun c => (c, batchValue fetch t c) := by
  cases t <;>
    simpa [processBatch, batchValue] using
      foldl_assocSet_append _ batch m hnd hdisj

theorem picsGo_closed (fetch : String → Option String) (timedOut : Nat → Bool)
    (bs : Nat) (hbs : 1 ≤ bs) :
    ∀ (fuel : Nat) (bIdx : Nat) (rest : List String) (m : PicMap),
      rest.length ≤ fuel → rest.Nodup →
      (∀ c ∈ rest, c ∉ m.map Prod.fst) →
      picsGo fetch timedOut bs fuel bIdx rest m
        = m ++ assignGo fetch timedOut bs fuel bIdx rest
  | 0, _, rest, m, _, _, _ => by simp [picsGo, assignGo]
  | fuel + 1, bIdx, [], m, _, _, _ => by simp [picsGo, assignGo]
  | fuel + 1, bIdx, c :: cs, m, hfuel, hnd, hdisj => by
    have htake_nd : ((c :: cs).take bs).Nodup :=
      hnd.sublist (List.take_sublist bs (c :: cs))
    have htake_disj : ∀ x ∈ (c :: cs).take bs, x ∉ m.map Prod.fst :=
      fun x hx => hdisj x (List.mem_of_mem_take hx)
    have hbatch := processBatch_append fetch (timedOut bIdx) ((c :: cs).take bs)
      m htake_nd htake_disj
    have hlen : ((c :: cs).drop bs).length ≤ fuel := by
      have := List.length_drop bs (c :: cs)
      have hlen1 : (c :: cs).length ≤ fuel + 1 := hfuel
      simp only [List.length_cons] at hlen1
      omega
    have hdrop_nd : ((c :: cs).drop bs).Nodup :=
      hnd.sublist (List.drop_sublist bs (c :: cs))
    have hdrop_disj : ∀ x ∈ (c :: cs).drop bs,
        x ∉ (m ++ ((c :: cs).take bs).map
          fun y => (y, batchValue fetch (timedOut bIdx) y)).map Prod.fst := by
      intro x hx
      rw [List.map_append, map_fst_pairup]
      simp only [List.mem_append, not_or]
      exact ⟨hdisj x (List.mem_of_mem_drop hx),
        fun hx_take => (List.disjoint_take_drop hnd le_rfl) hx_take hx⟩
    calc picsGo fetch timedOut bs (fuel + 1) bIdx (c :: cs) m
        = picsGo fetch timedOut bs fuel (bIdx + 1) ((c :: cs).drop bs)
            (m ++ ((c :: cs).take bs).map
              fun y => (y, batchValue fetch (timedOut bIdx) y)) := by
          rw [picsGo, hbatch]
      _ = (m ++ ((c :: cs).take bs).map
              (fun y => (y, batchValue fetch (timedOut bIdx) y)))
            ++ assignGo fetch timedOut bs fuel (bIdx + 1) ((c :: cs).drop bs) :=
          picsGo_closed fetch timedOut bs hbs fuel (bIdx + 1) ((c :: cs).drop bs)
            _ hlen hdrop_nd hdrop_disj
      _ = m ++ assignGo fetch timedOut bs (fuel + 1) bIdx (c :: cs) := by
          rw [assignGo, List.append_assoc]

theorem assignGo_keys (fetch : String → Option String) (timedOut : Nat → Bool)
    (bs : Nat) (hbs : 1 ≤ bs) :
    ∀ (fuel : Nat) (bIdx : Nat) (rest : List String), rest.length ≤ fuel →
      (assignGo fetch timedOut bs fuel bIdx rest).map Prod.fst = rest
  | 0, _, [], _ => by simp [assignGo]
  | 0, _, c :: cs, hfuel => by simp at hfuel
  | fuel + 1, bIdx, [], _ => by simp [assignGo]
  | fuel + 1, bIdx, c :: cs, hfuel => by
    have hlen : ((c :: cs).drop bs).length ≤ fuel := by
      have := List.length_drop bs (c :: cs)
      have hlen1 : (c :: cs).length ≤ fuel + 1 := hfuel
      simp only [List.length_cons] at hlen1
      omega
    calc (assignGo fetch timedOut bs (fuel + 1) bIdx (c :: cs)).map Prod.fst
        = (c :: cs).take bs
            ++ (assignGo fetch timedOut bs fuel (bIdx + 1)
                ((c :: cs).drop bs)).map Prod.fst := by
          rw [assignGo, List.map_append, map_fst_pairup]
      _ = (c :: cs).take bs ++ (c :: cs).drop bs := by
          rw [assignGo_keys fetch timedOut bs hbs fuel (bIdx + 1)
            ((c :: cs).drop bs) hlen]
      _ = c :: cs := List.take_append_drop bs (c :: cs)

theorem assignGo_timeout_mem (fetch : String → Option String)
    (timedOut : Nat → Bool) (bs : Nat) (hbs : 1 ≤ bs) :
    ∀ (fuel : Nat) (bIdx : Nat) (rest : List String), rest.length ≤ fuel →
      ∀ (j : Nat) (c : String), timedOut (bIdx + j) = true →
        c ∈ (rest.drop (j * bs)).take bs →
        (c, none) ∈ assignGo fetch timedOut bs fuel bIdx rest
  | 0, _, [], _ => by simp
  | 0, _, x :: xs, hfuel => by simp at hfuel
  | fuel + 1, bIdx, [], _ => by simp
  | fuel + 1, bIdx, x :: xs, hfuel => by
    intro j c ht hc
    have hlen : ((x :: xs).drop bs).length ≤ fuel := by
      have := List.length_drop bs (x :: xs)
      have hlen1 : (x :: xs).length ≤ fuel + 1 := hfuel
      simp only [List.length_cons] at hlen1
      omega
    rw [assignGo, List.mem_append]
    cases j with
    | zero =>
      left
      have ht0 : timedOut bIdx = true := by simpa using ht
      have hc0 : c ∈ ((x :: xs).take bs) := by simpa using hc
      refine List.mem_map.mpr ⟨c, hc0, ?_⟩
      simp [batchValue, ht0]
    | succ j' =>
      right
      have hdrop : (x :: xs).drop ((j' + 1) * bs)
          = ((x :: xs).drop bs).drop (j' * bs) := by
        rw [List.drop_drop]
        congr 1
        ring
      have ht' : timedOut ((bIdx + 1) + j') = true := by
        have : bIdx + 1 + j' = bIdx + (j' + 1) := by omega
        rw [this]
        exact ht
      refine assignGo_timeout_mem fetch timedOut bs hbs fuel (bIdx + 1)
        ((x :: xs).drop bs) hlen j' c ht' ?_
      rw [← hdrop]
      exact hc

/-- Counterexample for C4: the claim quantifies over every input list of N
ids and asserts the returned mapping has exactly N entries.  The result is a
JS `Map`, so a duplicated id yields a single entry: for the 2-element input
`["a", "a"]` the mapping has 1 entry, not 2. -/
theorem C4_getMultipleProfilePics_counterexample :
    getMultipleProfilePics (fun _ => none) (fun _ => false) ["a", "a"] 3
      = [("a", none)]
    ∧ (getMultipleProfilePics (fun _ => none) (fun _ => false)
        ["a", "a"] 3).length ≠ 2 := by decide

/-- C4 (amended): for every input list of N **distinct** ids and batch size
≥ 1 (callers use 3, 4 or 5), the returned mapping has exactly N entries whose
keys are the requested ids in order — each requested id present exactly once,
none omitted — and each value is a URL or `null`; every id belonging to a
batch whose overall batch timeout expired is mapped to `null`. -/
theorem C4_getMultipleProfilePics (fetch : String → Option String)
    (timedOut : Nat → Bool) (ids : List String) (bs : Nat)
    (hnd : ids.Nodup) (hbs : 1 ≤ bs) :
    (getMultipleProfilePics fetch timedOut ids bs).map Prod.fst = ids
    ∧ (getMultipleProfilePics fetch timedOut ids bs).length = ids.length
    ∧ (∀ p ∈ getMultipleProfilePics fetch timedOut ids bs,
        p.2 = none ∨ ∃ url, p.2 = some url)
    ∧ (∀ (j : Nat) (c : String), timedOut j = true →
        c ∈ (ids.drop (j * bs)).take bs →
        (c, none) ∈ getMultipleProfilePics fetch timedOut ids bs) := by
  have hclosed : getMultipleProfilePics fetch timedOut ids bs
      = assignGo fetch timedOut bs ids.length 0 ids := by
    have := picsGo_closed fetch timedOut bs hbs ids.length 0 ids [] le_rfl hnd
      (by simp)
    simpa [getMultipleProfilePics] using this
  have hkeys : (getMultipleProfilePics fetch timedOut ids bs).map Prod.fst
      = ids := by
    rw [hclosed]
    exact assignGo_keys fetch timedOut bs hbs ids.length 0 ids le_rfl
  refine ⟨hkeys, ?_, ?_, ?_⟩
  · have := congrArg List.length hkeys
    simpa using this
  · intro p _
    cases hp : p.2 with
    | none => exact Or.inl rfl
    | some url => exact Or.inr ⟨url, rfl⟩
  · intro j c ht hc
    rw [hclosed]
    exact assignGo_timeout_mem fetch timedOut bs hbs ids.length 0 ids le_rfl
      j c (by simpa using ht) hc

/-- Witness for C4 (amended): three distinct ids in batches of two, with the
second batch (holding `"c"`) timing out: the keys come back in order and
`"c"` is mapped to `null`. -/
theorem C4_getMultipleProfilePics_witness :
    ((getMultipleProfilePics some (fun b => b = 1) ["a", "b", "c"] 2).map
        Prod.fst = ["a", "b", "c"])
    ∧ ("c", none) ∈ getMultipleProfilePics some (fun b => b = 1)
        ["a", "b", "c"] 2 :=
  ⟨(C4_getMultipleProfilePics some (fun b => b = 1) ["a", "b", "c"] 2
      (by decide) (by decide)).1,
   (C4_getMultipleProfilePics some (fun b => b = 1) ["a", "b", "c"] 2
      (by decide) (by decide)).2.2.2 1 "c" (by decide) (by decide)⟩

/-! ### C6 -/

/-- C6: `getChats` sorts the chat list by timestamp descending (missing
timestamps count as 0), returns as the page exactly the chats ranked
`[O, O+L)` of that order (split into contacts and groups, order preserved),
reports `hasMore = (O + L) < T` and `totalPages = ⌈T / L⌉`; and the HTTP
layer clamps the limit to at most 200 with default 50. -/
theorem C6_getChats (chats : List Chat) (L O : Nat) (_hL : 1 ≤ L) :
    (sortChats chats).Perm chats
    ∧ List.Sorted chatGE (sortChats chats)
    ∧ (getChats chats L O).totalChats = chats.length
    ∧ (getChats chats L O).contacts
        = (((sortChats chats).drop O).take L).filter (fun c => !c.isGroup)
    ∧ (getChats chats L O).groups
        = (((sortChats chats).drop O).take L).filter (fun c => c.isGroup)
    ∧ (getChats chats L O).pagination.returnedCount
        = (((sortChats chats).drop O).take L).length
    ∧ ((getChats chats L O).pagination.hasMore = true ↔ O + L < chats.length)
    ∧ (getChats chats L O).pagination.totalPages = chats.length ⌈/⌉ L
    ∧ clampLimit none = 50
    ∧ (∀ q : Option Int, clampLimit q ≤ 200) := by
  have hperm : (sortChats chats).Perm chats :=
    List.perm_insertionSort chatGE chats
  have hlen : (sortChats chats).length = chats.length := hperm.length_eq
  refine ⟨hperm, List.sorted_insertionSort chatGE chats, ?_, rfl, rfl, ?_, ?_,
    ?_, rfl, ?_⟩
  · simpa [getChats] using hlen
  · rfl
  · simp [getChats, hlen]
  · rw [Nat.ceilDiv_eq_add_pred_div]
    simp [getChats, hlen]
  · intro q
    unfold clampLimit
    cases q with
    | none => simp
    | some n => by_cases h : n = 0 <;> simp [h]

/-- A three-chat listing used by the C6 witness. -/
def demoChats : List Chat :=
  [⟨"a", false, some 5⟩, ⟨"b", true, none⟩, ⟨"c", false, some 7⟩]

/-- Witness for C6: on three chats with `limit = 2`, `offset = 1`, the page
metadata and the split agree with the ranked-page description, and the clamp
caps an oversized query value. -/
theorem C6_getChats_witness :
    ((getChats demoChats 2 1).pagination.hasMore = true ↔
      1 + 2 < demoChats.length)
    ∧ (getChats demoChats 2 1).pagination.totalPages = demoChats.length ⌈/⌉ 2
    ∧ (getChats demoChats 2 1).contacts
        = (((sortChats demoChats).drop 1).take 2).filter (fun c => !c.isGroup)
    ∧ clampLimit (some 500) ≤ 200 :=
  ⟨(C6_getChats demoChats 2 1 (by decide)).2.2.2.2.2.2.1,
   (C6_getChats demoChats 2 1 (by decide)).2.2.2.2.2.2.2.1,
   (C6_getChats demoChats 2 1 (by decide)).2.2.2.1,
   (C6_getChats demoChats 2 1 (by decide)).2.2.2.2.2.2.2.2.2 (some 500)⟩

/-! ### C9 -/

theorem aar_decrease (inst : Instance) (ok : Bool) :
    (attemptAutoReconnection inst ok).1.reconnectAttempts
        < inst.reconnectAttempts →
    (attemptAutoReconnection inst ok).1.reconnectAttempts = 0 ∧ ok = true := by
  intro h
  by_cases h1 : inst.reconnecting
  · exfalso
    simp [attemptAutoReconnection, h1] at h
  · by_cases h2 : inst.reconnectAttempts + 1 > maxReconnectAttempts
    · exfalso
      simp [attemptAutoReconnection, h1, h2] at h
    · by_cases h3 : ok
      · refine ⟨?_, h3⟩
        simp [attemptAutoReconnection, h1, h2, h3]
      · exfalso
        simp [attemptAutoReconnection, h1, h2, h3] at h

theorem aar_failed_invariant (inst : Instance) (ok : Bool)
    (hinv : inst.status = Status.failed →
      maxReconnectAttempts < inst.reconnectAttempts) :
    (attemptAutoReconnection inst ok).1.status = Status.failed →
    maxReconnectAttempts
      < (attemptAutoReconnection inst ok).1.reconnectAttempts := by
  intro hres
  by_cases h1 : inst.reconnecting
  · simp [attemptAutoReconnection, h1] at hres ⊢
    exact hinv hres
  · by_cases h2 : inst.reconnectAttempts + 1 > maxReconnectAttempts
    · simp only [attemptAutoReconnection, h1] at hres ⊢
      simp [h2]
    · by_cases h3 : ok
      · exfalso
        simp [attemptAutoReconnection, h1, h2, h3] at hres
      · exfalso
        simp [attemptAutoReconnection, h1, h2, h3] at hres

/-- An instance in `ready` with a non-zero attempt counter, for the C9
counterexample. -/
def demoReadyInstance : Instance :=
  { status := .ready, qr := none, hasValidAuth := true, skipQR := true,
    isRecovered := false, reconnectAttempts := 3, reconnecting := false,
    keepAliveOn := true }

/-- Counterexample for C9: the claim allows `reconnectAttempts` to drop only
on a successful reconnection attempt (or to stop changing at `failed`), but
the `disconnected` event handler (line 548) resets the counter to 0: a
client `disconnected` event on an instance with `reconnectAttempts = 3`
drops the counter to 0 with no reconnection attempt involved and with the
status `disconnected`, not `failed`. -/
theorem C9_reconnectAttempts_counterexample :
    (stepInstance (.event .disconnected) demoReadyInstance).reconnectAttempts = 0
    ∧ demoReadyInstance.reconnectAttempts = 3
    ∧ demoReadyInstance.status ≠ Status.failed
    ∧ (stepInstance (.event .disconnected) demoReadyInstance).status
        ≠ Status.failed := by decide

/-- C9 (amended): over the program's steps (client events, guarded sweep
visits, the manual reconnect route, self-scheduled retries, health-probe
failures, and the fire-time-unguarded delayed reconnection calls scheduled
by keep-alive and health monitor), `reconnectAttempts` never decreases
except by a reset to 0, and such a reset happens only on a client
`disconnected` event or on a reconnection invocation whose reinitialization
succeeds; the invariant that a `failed` instance has
`reconnectAttempts > maxReconnectAttempts` is preserved by every step; and
while an instance stays in `failed`, no guarded step and no client event
changes `reconnectAttempts`, but a delayed unguarded invocation increments
it by exactly one (re-finalizing `failed`) — so even the `failed` state
does not freeze the counter. -/
theorem C9_reconnectAttempts (s : Step) (inst : Instance) :
    ((stepInstance s inst).reconnectAttempts < inst.reconnectAttempts →
      (stepInstance s inst).reconnectAttempts = 0 ∧
        (s = .event .disconnected ∨ s = .sweepVisit true ∨
         s = .manualReconnect true ∨ s = .scheduledRetry true ∨
         s = .delayedReconnect true))
    ∧ ((inst.status = Status.failed →
          maxReconnectAttempts < inst.reconnectAttempts) →
        (stepInstance s inst).status = Status.failed →
        maxReconnectAttempts < (stepInstance s inst).reconnectAttempts)
    ∧ (inst.status = Status.failed →
        maxReconnectAttempts < inst.reconnectAttempts →
        (stepInstance s inst).status = Status.failed →
        ((stepInstance s inst).reconnectAttempts = inst.reconnectAttempts
         ∨ ((stepInstance s inst).reconnectAttempts
              = inst.reconnectAttempts + 1
            ∧ (s = Step.delayedReconnect true
               ∨ s = Step.delayedReconnect false)))) := by
  refine ⟨?_, ?_, ?_⟩
  · intro hlt
    cases s with
    | event e =>
      cases e with
      | disconnected => exact ⟨by simp [stepInstance, applyEvent], Or.inl rfl⟩
      | qr payload =>
        exfalso
        cases hq : (inst.skipQR && inst.hasValidAuth) <;>
          simp [stepInstance, applyEvent, hq] at hlt
      | authenticated =>
        exfalso
        simp [stepInstance, applyEvent] at hlt
      | authFailure =>
        exfalso
        simp [stepInstance, applyEvent] at hlt
      | ready =>
        exfalso
        simp [stepInstance, applyEvent] at hlt
      | message =>
        exact absurd hlt (lt_irrefl _)
    | sweepVisit ok =>
      by_cases hg : sweepGuard inst = true
      · simp only [stepInstance, if_pos hg] at hlt ⊢
        obtain ⟨h0, hok⟩ := aar_decrease inst ok hlt
        subst hok
        exact ⟨h0, Or.inr (Or.inl rfl)⟩
      · exfalso
        simp only [stepInstance, if_neg hg] at hlt
        exact absurd hlt (lt_irrefl _)
    | manualReconnect ok =>
      by_cases hg : inst.status = Status.disconnected
      · simp only [stepInstance, if_pos hg] at hlt ⊢
        obtain ⟨h0, hok⟩ := aar_decrease inst ok hlt
        subst hok
        exact ⟨h0, Or.inr (Or.inr (Or.inl rfl))⟩
      · exfalso
        simp only [stepInstance, if_neg hg] at hlt
        exact absurd hlt (lt_irrefl _)
    | scheduledRetry ok =>
      by_cases hg : inst.reconnectAttempts < maxReconnectAttempts
      · simp only [stepInstance, if_pos hg] at hlt ⊢
        obtain ⟨h0, hok⟩ := aar_decrease inst ok hlt
        subst hok
        exact ⟨h0, Or.inr (Or.inr (Or.inr (Or.inl rfl)))⟩
      · exfalso
        simp only [stepInstance, if_neg hg] at hlt
        exact absurd hlt (lt_irrefl _)
    | delayedReconnect ok =>
      simp only [stepInstance] at hlt ⊢
      obtain ⟨h0, hok⟩ := aar_decrease inst ok hlt
      subst hok
      exact ⟨h0, Or.inr (Or.inr (Or.inr (Or.inr rfl)))⟩
    | healthFail =>
      exfalso
      by_cases hg : inst.status = Status.ready
      · simp only [stepInstance, if_pos hg] at hlt
        simp at hlt
      · simp only [stepInstance, if_neg hg] at hlt
        exact absurd hlt (lt_irrefl _)
  · intro hinv hres
    cases s with
    | event e =>
      cases e with
      | disconnected =>
        exfalso
        simp [stepInstance, applyEvent] at hres
      | qr payload =>
        exfalso
        cases hq : (inst.skipQR && inst.hasValidAuth) <;>
          simp [stepInstance, applyEvent, hq] at hres
      | authenticated =>
        exfalso
        simp [stepInstance, applyEvent] at hres
      | authFailure =>
        exfalso
        simp [stepInstance, applyEvent] at hres
      | ready =>
        exfalso
        simp [stepInstance, applyEvent] at hres
      | message => exact hinv hres
    | sweepVisit ok =>
      by_cases hg : sweepGuard inst = true
      · simp only [stepInstance, if_pos hg] at hres ⊢
        exact aar_failed_invariant inst ok hinv hres
      · simp only [stepInstance, if_neg hg] at hres ⊢
        exact hinv hres
    | manualReconnect ok =>
      by_cases hg : inst.status = Status.disconnected
      · simp only [stepInstance, if_pos hg] at hres ⊢
        exact aar_failed_invariant inst ok hinv hres
      · simp only [stepInstance, if_neg hg] at hres ⊢
        exact hinv hres
    | scheduledRetry ok =>
      by_cases hg : inst.reconnectAttempts < maxReconnectAttempts
      · simp only [stepInstance, if_pos hg] at hres ⊢
        exact aar_failed_invariant inst ok hinv hres
      · simp only [stepInstance, if_neg hg] at hres ⊢
        exact hinv hres
    | delayedReconnect ok =>
      simp only [stepInstance] at hres ⊢
      exact aar_failed_invariant inst ok hinv hres
    | healthFail =>
      by_cases hg : inst.status = Status.ready
      · exfalso
        simp only [stepInstance, if_pos hg] at hres
        simp at hres
      · simp only [stepInstance, if_neg hg] at hres ⊢
        exact hinv hres
  · intro hst h8 hres
    cases s with
    | event e =>
      cases e with
      | disconnected =>
        exfalso
        simp [stepInstance, applyEvent] at hres
      | qr payload =>
        exfalso
        cases hq : (inst.skipQR && inst.hasValidAuth) <;>
          simp [stepInstance, applyEvent, hq] at hres
      | authenticated =>
        exfalso
        simp [stepInstance, applyEvent] at hres
      | authFailure =>
        exfalso
        simp [stepInstance, applyEvent] at hres
      | ready =>
        exfalso
        simp [stepInstance, applyEvent] at hres
      | message => exact Or.inl rfl
    | sweepVisit ok =>
      have hng : ¬ sweepGuard inst = true := by simp [sweepGuard, hst]
      exact Or.inl (by simp [stepInstance, hng])
    | manualReconnect ok =>
      have hng : ¬ inst.status = Status.disconnected := by simp [hst]
      exact Or.inl (by simp [stepInstance, hng])
    | scheduledRetry ok =>
      have hng : ¬ inst.reconnectAttempts < maxReconnectAttempts := by omega
      exact Or.inl (by simp [stepInstance, hng])
    | delayedReconnect ok =>
      by_cases h1 : inst.reconnecting
      · exact Or.inl (by simp [stepInstance, attemptAutoReconnection, h1])
      · refine Or.inr ⟨?_, ?_⟩
        · have h2 : inst.reconnectAttempts + 1 > maxReconnectAttempts := by
            omega
          simp [stepInstance, attemptAutoReconnection, h1, h2]
        · cases ok
          · exact Or.inr rfl
          · exact Or.inl rfl
    | healthFail =>
      have hng : ¬ inst.status = Status.ready := by simp [hst]
      exact Or.inl (by simp [stepInstance, hng])

/-- A `failed` instance with an exhausted attempt counter. -/
def demoFailedInstance : Instance :=
  { status := .failed, qr := none, hasValidAuth := true, skipQR := true,
    isRecovered := false, reconnectAttempts := 9, reconnecting := false,
    keepAliveOn := false }

/-- Witness for C9 (amended): a concrete `failed` instance with counter 9 is
left untouched by a sweep visit (first disjunct), while a delayed unguarded
invocation on the same instance keeps the counter above the bound — it bumps
it to 10. -/
theorem C9_reconnectAttempts_witness :
    ((stepInstance (.sweepVisit true) demoFailedInstance).reconnectAttempts
        = demoFailedInstance.reconnectAttempts
      ∨ ((stepInstance (.sweepVisit true)
            demoFailedInstance).reconnectAttempts
          = demoFailedInstance.reconnectAttempts + 1
         ∧ (Step.sweepVisit true = Step.delayedReconnect true
            ∨ Step.sweepVisit true = Step.delayedReconnect false)))
    ∧ maxReconnectAttempts
        < (stepInstance (.delayedReconnect false)
            demoFailedInstance).reconnectAttempts :=
  ⟨(C9_reconnectAttempts (.sweepVisit true) demoFailedInstance).2.2 rfl
      (by decide) (by decide),
   (C9_reconnectAttempts (.delayedReconnect false) demoFailedInstance).2.1
      (fun _ => by decide) (by decide)⟩

end WpWebjs
